import Mathlib

/-
Verification of the randomx-bindings layer: a shallow embedding of the
resource-lifecycle code in src/error.rs, src/flags.rs, src/cache.rs,
src/dataset.rs and src/vm.rs.  The opaque native engine (randomx4r-sys,
an external crate) is modelled as a record of uninterpreted functions
giving, for each engine entry point, its success/failure outcome and its
pure result.  Every operation of the layer is embedded as a Lean function
returning both the list of engine calls it issues (its trace) and its
outcome, so that claims about "no engine interaction" and about the set
of range-populate calls are statable.
-/

/-- Errors of the binding layer, mirroring the RandomxError enum of
src/error.rs (three variants, no payloads). -/
inductive RandomxError
  | CacheAllocError
  | DatasetAllocError
  | VmAllocError
deriving DecidableEq, Repr

/-- A u32 bitmask of engine options, mirroring RandomxFlags of
src/flags.rs (generated by the bitflags macro over a u32). -/
structure RandomxFlags where
  bits : Nat
deriving DecidableEq, Repr

/-- Numeric flag constants.  Their values come from the external engine
header re-exported by the randomx4r-sys crate (an external collaborator,
not part of this repository): DEFAULT 0, LARGEPAGES 1, HARDAES 2,
FULLMEM 4, JIT 8, SECURE 16, ARGON2_SSSE3 32, ARGON2_AVX2 64 and
ARGON2 = SSSE3 or AVX2 = 96. -/
def RandomxFlags.DEFAULT : RandomxFlags := ⟨0⟩

def RandomxFlags.LARGEPAGES : RandomxFlags := ⟨1⟩

def RandomxFlags.HARDAES : RandomxFlags := ⟨2⟩

def RandomxFlags.FULLMEM : RandomxFlags := ⟨4⟩

def RandomxFlags.JIT : RandomxFlags := ⟨8⟩

def RandomxFlags.SECURE : RandomxFlags := ⟨16⟩

def RandomxFlags.ARGON2_SSSE3 : RandomxFlags := ⟨32⟩

def RandomxFlags.ARGON2_AVX2 : RandomxFlags := ⟨64⟩

def RandomxFlags.ARGON2 : RandomxFlags := ⟨96⟩

/-- Union of all named flag bits (bitflags `Self::all().bits()`). -/
def RandomxFlags.allBits : Nat :=
  0 ||| 1 ||| 2 ||| 4 ||| 8 ||| 16 ||| 32 ||| 64 ||| 96

/-- The bitflags `contains` query used at src/vm.rs:19 and src/vm.rs:41:
`(self.bits & other.bits) == other.bits`. -/
def RandomxFlags.contains (self f : RandomxFlags) : Bool :=
  self.bits &&& f.bits == f.bits

/-- The bitflags `from_bits` conversion used by `RandomxFlags::default`
(src/flags.rs:46): returns `some` exactly when every set bit of `bits`
is a known named flag bit (on a u32 this is the `bits & !all() == 0`
test), and never clears any bit. -/
def RandomxFlags.fromBits (bits : Nat) : Option RandomxFlags :=
  if bits &&& RandomxFlags.allBits = bits then some ⟨bits⟩ else none

/-- The opaque native engine of spec section 6, as uninterpreted data:
whether each allocation entry point succeeds, the fixed dataset item
count (`randomx_dataset_item_count`, a u64 independent of caller input),
the VM handle returned by `randomx_create_vm` (none models a null
return), the hash function of the engine (digest byte at each of the 32
output positions), and the recommended bitmask `randomx_get_flags`. -/
structure Engine where
  cacheAllocOk : RandomxFlags → Bool
  datasetAllocOk : RandomxFlags → Bool
  itemCount : Nat
  vmCreate : RandomxFlags → Option Nat
  calcHash : Nat → List Nat → Fin 32 → Nat
  recommendedFlags : Nat

/-- One call into the native engine, recorded in operation traces. -/
inductive EngineCall
  | allocCache
  | initCache (key : List Nat)
  | allocDataset
  | itemCountQuery
  | initDataset (start size : Nat)
  | createVm
deriving DecidableEq, Repr

/-- RandomxCache::new (src/cache.rs:13-29): allocate the native cache
(CacheAllocError on a null handle), then initialize it from the key
bytes, which are forwarded verbatim. -/
def RandomxCache.new (eng : Engine) (flags : RandomxFlags) (key : List Nat) :
    List EngineCall × Except RandomxError Unit :=
  if eng.cacheAllocOk flags then
    ([EngineCall.allocCache, EngineCall.initCache key], Except.ok ())
  else
    ([EngineCall.allocCache], Except.error RandomxError.CacheAllocError)

/-- Outcome of RandomxDataset::new: the `assert!` panic, a returned
error value, or a successfully returned dataset. -/
inductive DsOutcome
  | panicked
  | errored (e : RandomxError)
  | ok
deriving DecidableEq, Repr

/-- Result of one run of RandomxDataset::new: the engine calls issued
(by the constructing thread and its workers), the number of worker
handles the constructing thread joined, and the outcome. -/
structure DatasetRun where
  calls : List EngineCall
  joined : Nat
  result : DsOutcome
deriving DecidableEq, Repr

/-- Scheduling environment for one run of RandomxDataset::new: which
worker threads panic before issuing their range-populate call, and
whether `Arc::try_unwrap(dataset_arc)` succeeds at src/dataset.rs:62
(it fails only when a reference to the shared dataset is still
outstanding, the code's only worker-synchronization failure signal). -/
structure WorkerEnv where
  panics : Nat → Bool
  tryUnwrapOk : Bool

/-- The scheduling environment of a normal run: no worker panics and
exclusive ownership of the dataset is reclaimed after the joins. -/
def noPanics : WorkerEnv :=
  { panics := fun _ => false, tryUnwrapOk := true }

/-- The sub-range computation of the spawn loop at src/dataset.rs:42-56,
indexed by remaining iterations: with `rem` iterations left and the
running offset `start`, each iteration takes `this_size = size`, except
the final one (`i == num_threads - 1`, i.e. `rem = 1`) which takes
`size + last`; it records `(start, this_size)` and advances `start` by
`this_size`.  All arithmetic is on u64 in the source; since the running
offset never exceeds the u64 item count, plain Nat arithmetic is
faithful. -/
def initRanges (size last : Nat) : Nat → Nat → List (Nat × Nat)
  | 0, _ => []
  | rem + 1, start =>
    let thisSize := if rem = 0 then size + last else size
    (start, thisSize) :: initRanges size last rem (start + thisSize)

/-- The full list of per-worker sub-ranges spawned for `n` threads:
`size = count / n`, `last = count % n` (src/dataset.rs:38-39), starting
at offset 0. -/
def spawnedRanges (count n : Nat) : List (Nat × Nat) :=
  initRanges (count / n) (count % n) n 0

/-- The ranges passed to `randomx_init_dataset` by RandomxDataset::new:
the single full range [0, count) when `num_threads == 1`
(src/dataset.rs:29-32), the spawned partition otherwise. -/
def populateRanges (count n : Nat) : List (Nat × Nat) :=
  if n = 1 then [(0, count)] else spawnedRanges count n

/-- RandomxDataset::new (src/dataset.rs:15-69).  `numThreads` is `u8` in
the source, modelled as `Fin 256`.  Control flow, in source order:
`assert!(num_threads > 0)` (panics before any engine interaction);
build the transient cache, propagating its error unchanged via `?`;
allocate the dataset (DatasetAllocError on null); query the item count;
then either populate [0, count) serially, or spawn one worker per
sub-range (a panicking worker issues no call), join every handle with
the join result discarded (`let _ = handle.join()`), and reclaim the
dataset with `Arc::try_unwrap`, whose failure is returned as
DatasetAllocError.  Worker calls are recorded in spawn order (the
claims only concern the collection of calls, not their interleaving). -/
def RandomxDataset.new (eng : Engine) (wenv : WorkerEnv) (flags : RandomxFlags)
    (key : List Nat) (numThreads : Fin 256) : DatasetRun :=
  if numThreads.val = 0 then
    { calls := [], joined := 0, result := DsOutcome.panicked }
  else
    match RandomxCache.new eng flags key with
    | (cacheCalls, Except.error e) =>
      { calls := cacheCalls, joined := 0, result := DsOutcome.errored e }
    | (cacheCalls, Except.ok _) =>
      if eng.datasetAllocOk flags then
        let count := eng.itemCount
        let base := cacheCalls ++ [EngineCall.allocDataset, EngineCall.itemCountQuery]
        if numThreads.val = 1 then
          { calls := base ++ [EngineCall.initDataset 0 count],
            joined := 0, result := DsOutcome.ok }
        else
          let ranges := spawnedRanges count numThreads.val
          let workerCalls := ranges.enum.filterMap (fun p =>
            if wenv.panics p.1 then none
            else some (EngineCall.initDataset p.2.1 p.2.2))
          let joinResults := ranges.enum.map (fun p => !wenv.panics p.1)
          { calls := base ++ workerCalls,
            joined := joinResults.length,
            result := if wenv.tryUnwrapOk then DsOutcome.ok
                      else DsOutcome.errored RandomxError.DatasetAllocError }
      else
        { calls := cacheCalls ++ [EngineCall.allocDataset],
          joined := 0, result := DsOutcome.errored RandomxError.DatasetAllocError }

/-- The VM handle wrapper of src/vm.rs:12-15 (the lifetime-bound
PhantomData borrow is a compile-time artefact with no runtime content). -/
structure RandomxVm where
  vm : Nat
deriving DecidableEq, Repr

/-- RandomxVm::new (src/vm.rs:18-33), light mode: rejects a FULLMEM
flag set with VmAllocError before any engine call, otherwise asks the
engine for a VM bound to the cache handle (VmAllocError on null). -/
def RandomxVm.new (eng : Engine) (flags : RandomxFlags) :
    List EngineCall × Except RandomxError RandomxVm :=
  if flags.contains RandomxFlags.FULLMEM then
    ([], Except.error RandomxError.VmAllocError)
  else
    match eng.vmCreate flags with
    | none => ([EngineCall.createVm], Except.error RandomxError.VmAllocError)
    | some h => ([EngineCall.createVm], Except.ok ⟨h⟩)

/-- RandomxVm::new_fast (src/vm.rs:37-55), fast mode: rejects a flag
set lacking FULLMEM with VmAllocError before any engine call, otherwise
asks the engine for a VM bound to the dataset handle. -/
def RandomxVm.newFast (eng : Engine) (flags : RandomxFlags) :
    List EngineCall × Except RandomxError RandomxVm :=
  if !(flags.contains RandomxFlags.FULLMEM) then
    ([], Except.error RandomxError.VmAllocError)
  else
    match eng.vmCreate flags with
    | none => ([EngineCall.createVm], Except.error RandomxError.VmAllocError)
    | some h => ([EngineCall.createVm], Except.ok ⟨h⟩)

/-- RandomxVm::hash (src/vm.rs:70-83): forwards the input bytes to
`randomx_calculate_hash` against this VM's native handle and reads the
32-byte output buffer back out.  The return type in the source is
`[u8; 32]` with no error path. -/
def RandomxVm.hash (eng : Engine) (self : RandomxVm) (input : List Nat) : List Nat :=
  List.ofFn (fun i : Fin 32 => eng.calcHash self.vm input i)

/-- RandomxFlags::default (src/flags.rs:44-47):
`RandomxFlags::from_bits(randomx_get_flags()).unwrap()`.  A `none`
result models the `unwrap` panic (process-fatal, not a recoverable
error value). -/
def RandomxFlags.defaultFlags (eng : Engine) : Option RandomxFlags :=
  RandomxFlags.fromBits eng.recommendedFlags

/-- Whether the sub-range `p = (start, size)` covers item `j`. -/
def coversItem (p : Nat × Nat) (j : Nat) : Bool :=
  decide (p.1 ≤ j ∧ j < p.1 + p.2)

/-- Number of sub-ranges in `ps` that cover item `j`. -/
def countCovering (ps : List (Nat × Nat)) (j : Nat) : Nat :=
  (ps.filter (fun p => coversItem p j)).length

/-- The (start, size) arguments of the range-populate calls in a trace. -/
def initCallRanges (cs : List EngineCall) : List (Nat × Nat) :=
  cs.filterMap (fun c =>
    match c with
    | EngineCall.initDataset s z => some (s, z)
    | _ => none)

/-- One spawn-loop iteration per remaining count: the range list has
exactly `rem` entries. -/
theorem initRanges_length (size last : Nat) :
    ∀ rem start, (initRanges size last rem start).length = rem := by
  intro rem
  induction rem with
  | zero => intro start; simp [initRanges]
  | succ r ih => intro start; simp [initRanges, ih]

/-- Closed form of the spawn-loop ranges: entry `k` starts at
`start + k * size`, has size `size`, and the final entry additionally
receives the remainder `last`. -/
theorem initRanges_getD (size last : Nat) :
    ∀ rem start k, k < rem →
      (initRanges size last rem start).getD k (0, 0)
        = (start + k * size, if k = rem - 1 then size + last else size) := by
  intro rem
  induction rem with
  | zero => intro start k hk; omega
  | succ r ih =>
    intro start k hk
    cases k with
    | zero =>
      simp only [initRanges, List.getD_cons_zero, Nat.zero_mul, Nat.add_zero,
        Nat.add_sub_cancel, Prod.mk.injEq]
      refine ⟨by simp, ?_⟩
      by_cases h : r = 0
      · subst h; simp
      · rw [if_neg h, if_neg (by omega : ¬ (0 = r))]
    | succ k =>
      have hk' : k < r := by omega
      have hr : r ≠ 0 := by omega
      simp only [initRanges, List.getD_cons_succ, ih _ _ hk']
      rw [if_neg hr, Prod.mk.injEq]
      refine ⟨by ring, ?_⟩
      simp only [Nat.add_sub_cancel]
      by_cases h2 : k = r - 1
      · rw [if_pos h2, if_pos (by omega : k + 1 = r)]
      · rw [if_neg h2, if_neg (by omega : ¬ (k + 1 = r))]

/-- Sum of the spawn-loop range sizes: `rem * size` plus the remainder,
for at least one iteration. -/
theorem initRanges_sum (size last : Nat) :
    ∀ rem start, 1 ≤ rem →
      ((initRanges size last rem start).map Prod.snd).sum = rem * size + last := by
  intro rem
  induction rem with
  | zero => intro start h; omega
  | succ r ih =>
    intro start _
    by_cases hr : r = 0
    · subst hr
      simp [initRanges]
    · rw [show initRanges size last (r + 1) start
            = (start, size) :: initRanges size last r (start + size) from by
            simp [initRanges, hr]]
      rw [List.map_cons, List.sum_cons, ih (start + size) (by omega), Nat.succ_mul]
      omega

/-- Splitting a covering count at the head of the range list. -/
theorem countCovering_cons (p : Nat × Nat) (ps : List (Nat × Nat)) (j : Nat) :
    countCovering (p :: ps) j
      = (if p.1 ≤ j ∧ j < p.1 + p.2 then 1 else 0) + countCovering ps j := by
  by_cases h : p.1 ≤ j ∧ j < p.1 + p.2
  · simp [countCovering, coversItem, List.filter_cons, h, Nat.add_comm]
  · simp [countCovering, coversItem, List.filter_cons, h]

/-- The spawn-loop ranges starting at `start` tile the interval
`[start, start + rem * size + last)`: each of its items is covered by
exactly one range, and no item outside it is covered. -/
theorem countCovering_initRanges (size last : Nat) :
    ∀ rem start j, 1 ≤ rem →
      countCovering (initRanges size last rem start) j
        = if start ≤ j ∧ j < start + rem * size + last then 1 else 0 := by
  intro rem
  induction rem with
  | zero => intro start j h; omega
  | succ r ih =>
    intro start j _
    by_cases hr : r = 0
    · subst hr
      rw [show initRanges size last 1 start = [(start, size + last)] from by
            simp [initRanges]]
      rw [countCovering_cons]
      have h0 : countCovering [] j = 0 := by simp [countCovering]
      rw [h0]
      split_ifs <;> omega
    · rw [show initRanges size last (r + 1) start
            = (start, size) :: initRanges size last r (start + size) from by
            simp [initRanges, hr]]
      rw [countCovering_cons, ih (start + size) j (by omega), Nat.succ_mul]
      split_ifs <;> omega

/-- The ranges actually passed to the engine cover each item of
`[0, count)` exactly once and nothing else, for any positive thread
count. -/
theorem countCovering_populateRanges (count n j : Nat) (hn : 1 ≤ n) :
    countCovering (populateRanges count n) j = if j < count then 1 else 0 := by
  unfold populateRanges
  by_cases h1 : n = 1
  · rw [if_pos h1, countCovering_cons]
    have h0 : countCovering [] j = 0 := by simp [countCovering]
    rw [h0]
    split_ifs <;> omega
  · rw [if_neg h1]
    unfold spawnedRanges
    rw [countCovering_initRanges _ _ n 0 j (by omega)]
    have hdm : n * (count / n) + count % n = count := Nat.div_add_mod count n
    split_ifs <;> omega

/-- Extracting the range-populate arguments from the worker calls of a
panic-free run recovers the spawned range list itself. -/
theorem initCallRanges_workerEnum (rs : List (Nat × Nat)) :
    ∀ k, initCallRanges ((List.enumFrom k rs).filterMap (fun p =>
        if noPanics.panics p.1 then none
        else some (EngineCall.initDataset p.2.1 p.2.2))) = rs := by
  induction rs with
  | nil => intro k; simp [initCallRanges]
  | cons a l ih =>
    intro k
    have h := ih (k + 1)
    simp only [List.enumFrom, List.filterMap_cons, noPanics, initCallRanges] at h ⊢
    simp only [Bool.false_eq_true, if_false] at h ⊢
    simp [h]

/-- In a panic-free run with a positive thread count in which both the
cache and the dataset allocate, the range-populate calls issued by
RandomxDataset::new are exactly the ranges of `populateRanges`. -/
theorem initCallRanges_new (eng : Engine) (flags : RandomxFlags) (key : List Nat)
    (n : Fin 256) (hn : 1 ≤ n.val)
    (hc : eng.cacheAllocOk flags = true) (hd : eng.datasetAllocOk flags = true) :
    initCallRanges (RandomxDataset.new eng noPanics flags key n).calls
      = populateRanges eng.itemCount n.val := by
  unfold RandomxDataset.new RandomxCache.new
  rw [if_neg (by omega : ¬ n.val = 0)]
  rw [if_pos hc]
  simp only []
  rw [if_pos hd]
  by_cases h1 : n.val = 1
  · rw [if_pos h1]
    simp [initCallRanges, populateRanges, h1]
  · rw [if_neg h1]
    have hworker := initCallRanges_workerEnum (spawnedRanges eng.itemCount n.val) 0
    simp only [populateRanges, if_neg h1]
    simp only [initCallRanges, List.filterMap_append] at hworker ⊢
    simp [List.enum, hworker]

/-- The worker calls of a run, restricted to their range-populate
arguments, never outnumber the spawned ranges, whatever the panic
pattern. -/
theorem initCallRanges_workerEnum_le (wenv : WorkerEnv) (rs : List (Nat × Nat)) :
    ∀ k, (initCallRanges ((List.enumFrom k rs).filterMap (fun p =>
        if wenv.panics p.1 then none
        else some (EngineCall.initDataset p.2.1 p.2.2)))).length ≤ rs.length := by
  induction rs with
  | nil => intro k; simp [initCallRanges]
  | cons a l ih =>
    intro k
    have h := ih (k + 1)
    by_cases hp : wenv.panics k = true
    · simp only [List.enumFrom, List.filterMap_cons, List.length_cons]
      simp only [hp, if_true]
      omega
    · simp only [List.enumFrom, List.filterMap_cons, List.length_cons]
      rw [if_neg hp]
      simp only [initCallRanges, List.filterMap_cons] at h ⊢
      simp only [List.length_cons]
      omega

/-- Claim C1: for every fixed (flags, key) and every thread count from 1
up to the u8 maximum, the range-populate calls issued by a panic-free
run of RandomxDataset::new cover every item of [0, item_count) exactly
once and no other item, and their coverage coincides with that of the
serial (thread_count = 1) run, so parallel population is equivalent to
serial population. -/
theorem dataset_parallel_equiv_serial (eng : Engine) (flags : RandomxFlags)
    (key : List Nat) (n : Fin 256) (hn : 1 ≤ n.val)
    (hc : eng.cacheAllocOk flags = true) (hd : eng.datasetAllocOk flags = true)
    (j : Nat) :
    countCovering
        (initCallRanges (RandomxDataset.new eng noPanics flags key n).calls) j
      = (if j < eng.itemCount then 1 else 0)
    ∧ countCovering
        (initCallRanges (RandomxDataset.new eng noPanics flags key n).calls) j
      = countCovering
        (initCallRanges (RandomxDataset.new eng noPanics flags key 1).calls) j := by
  have hone : ((1 : Fin 256)).val = 1 := rfl
  have hme := initCallRanges_new eng flags key n hn hc hd
  have hse := initCallRanges_new eng flags key 1 (by rw [hone]) hc hd
  rw [hme, hse, hone, countCovering_populateRanges _ _ _ hn,
    countCovering_populateRanges _ _ _ (by omega)]
  exact ⟨rfl, rfl⟩

/-- Claim C2: for every item count and every thread count at least 1,
the partition used by dataset creation consists of `n` contiguous
disjoint sub-ranges starting at 0 whose sizes sum to the item count;
every sub-range except the last has size `count / n`, and the last has
size `count / n + count % n`. -/
theorem dataset_partition_shape (count n : Nat) (hn : 1 ≤ n) :
    (populateRanges count n).length = n
    ∧ ((populateRanges count n).getD 0 (0, 0)).1 = 0
    ∧ (∀ k, k + 1 < n →
        ((populateRanges count n).getD (k + 1) (0, 0)).1
          = ((populateRanges count n).getD k (0, 0)).1
            + ((populateRanges count n).getD k (0, 0)).2)
    ∧ ((populateRanges count n).map Prod.snd).sum = count
    ∧ (∀ k, k + 1 < n → ((populateRanges count n).getD k (0, 0)).2 = count / n)
    ∧ ((populateRanges count n).getD (n - 1) (0, 0)).2 = count / n + count % n := by
  by_cases h1 : n = 1
  · subst h1
    refine ⟨by simp [populateRanges], by simp [populateRanges],
      by intro k hk; omega, by simp [populateRanges],
      by intro k hk; omega, by simp [populateRanges, Nat.mod_one]⟩
  · simp only [populateRanges, if_neg h1, spawnedRanges]
    refine ⟨initRanges_length _ _ n 0, ?_, ?_, ?_, ?_, ?_⟩
    · rw [initRanges_getD _ _ n 0 0 (by omega)]
      show 0 + 0 * (count / n) = 0
      simp
    · intro k hk
      rw [initRanges_getD _ _ n 0 (k + 1) (by omega),
        initRanges_getD _ _ n 0 k (by omega), if_neg (by omega : ¬ k = n - 1)]
      show 0 + (k + 1) * (count / n) = 0 + k * (count / n) + count / n
      ring
    · rw [initRanges_sum _ _ n 0 (by omega)]
      exact Nat.div_add_mod count n
    · intro k hk
      rw [initRanges_getD _ _ n 0 k (by omega)]
      show (if k = n - 1 then count / n + count % n else count / n) = count / n
      rw [if_neg (by omega : ¬ k = n - 1)]
    · rw [initRanges_getD _ _ n 0 (n - 1) (by omega)]
      show (if n - 1 = n - 1 then count / n + count % n else count / n)
        = count / n + count % n
      rw [if_pos rfl]

/-- Claim C4: in the multi-threaded path the constructing thread joins
every spawned worker regardless of the panic pattern (the join results
are discarded), and when exclusive ownership of the shared dataset
cannot be reclaimed after the joins (`Arc::try_unwrap` fails, the
code's worker-synchronization failure), creation returns
DatasetAllocError rather than a dataset. -/
theorem dataset_joins_all_workers (eng : Engine) (wenv : WorkerEnv)
    (flags : RandomxFlags) (key : List Nat) (n : Fin 256) (hn : 2 ≤ n.val)
    (hc : eng.cacheAllocOk flags = true) (hd : eng.datasetAllocOk flags = true) :
    (RandomxDataset.new eng wenv flags key n).joined = n.val
    ∧ (wenv.tryUnwrapOk = false →
       (RandomxDataset.new eng wenv flags key n).result
         = DsOutcome.errored RandomxError.DatasetAllocError) := by
  unfold RandomxDataset.new RandomxCache.new
  rw [if_neg (by omega : ¬ n.val = 0)]
  rw [if_pos hc]
  simp only []
  rw [if_pos hd, if_neg (by omega : ¬ n.val = 1)]
  constructor
  · simp [spawnedRanges, initRanges_length]
  · intro h
    rw [h]
    simp

/-- Claim C5: light-mode VM creation with a FULLMEM flag set, and
fast-mode VM creation without it, both fail with VmAllocError and an
empty engine trace (no engine interaction is attempted). -/
theorem vm_mode_flag_mismatch_fails_fast (eng : Engine)
    (lightFlags fastFlags : RandomxFlags)
    (hl : lightFlags.contains RandomxFlags.FULLMEM = true)
    (hf : fastFlags.contains RandomxFlags.FULLMEM = false) :
    RandomxVm.new eng lightFlags
      = ([], Except.error RandomxError.VmAllocError)
    ∧ RandomxVm.newFast eng fastFlags
      = ([], Except.error RandomxError.VmAllocError) := by
  constructor
  · unfold RandomxVm.new
    rw [hl]
    simp
  · unfold RandomxVm.newFast
    rw [hf]
    simp

/-- Claim C6: dataset creation with thread count 0 trips the assert
before any engine interaction: the trace is empty (no cache build, no
dataset allocation, no range-populate call) and the outcome is the
panic, for every engine and scheduling environment. -/
theorem dataset_zero_threads_rejected (eng : Engine) (wenv : WorkerEnv)
    (flags : RandomxFlags) (key : List Nat) :
    (RandomxDataset.new eng wenv flags key 0).calls = []
    ∧ (RandomxDataset.new eng wenv flags key 0).result = DsOutcome.panicked := by
  constructor <;> rfl

/-- Claim C7: a failure of the transient cache-build phase of dataset
creation surfaces as CacheAllocError (propagated unchanged by the `?`
operator), a failure of the native dataset allocation as
DatasetAllocError, and the two error values are distinct, so the caller
can observe which phase failed. -/
theorem dataset_cache_failure_distinct (eng : Engine) (wenv : WorkerEnv)
    (flags : RandomxFlags) (key : List Nat) (n : Fin 256) (hn : 1 ≤ n.val) :
    (eng.cacheAllocOk flags = false →
      (RandomxDataset.new eng wenv flags key n).result
        = DsOutcome.errored RandomxError.CacheAllocError)
    ∧ (eng.cacheAllocOk flags = true → eng.datasetAllocOk flags = false →
      (RandomxDataset.new eng wenv flags key n).result
        = DsOutcome.errored RandomxError.DatasetAllocError)
    ∧ RandomxError.CacheAllocError ≠ RandomxError.DatasetAllocError := by
  refine ⟨?_, ?_, by decide⟩
  · intro h
    unfold RandomxDataset.new RandomxCache.new
    rw [if_neg (by omega : ¬ n.val = 0), h]
    simp
  · intro h hd
    unfold RandomxDataset.new RandomxCache.new
    rw [if_neg (by omega : ¬ n.val = 0), h]
    simp only []
    rw [hd]
    simp

/-- Claim C8: for every VM and every input byte sequence (including the
empty one) the hash operation is total with no error path, returns a
digest of exactly 32 bytes, and is a deterministic function of the VM
state and the input: VMs with the same native handle yield the same
digest on the same input. -/
theorem hash_total_deterministic (eng : Engine) (vm vm2 : RandomxVm)
    (input : List Nat) (h : vm.vm = vm2.vm) :
    (RandomxVm.hash eng vm input).length = 32
    ∧ RandomxVm.hash eng vm input = RandomxVm.hash eng vm2 input
    ∧ (RandomxVm.hash eng vm []).length = 32 := by
  refine ⟨by simp [RandomxVm.hash], by simp [RandomxVm.hash, h],
    by simp [RandomxVm.hash]⟩

/-- Claim C9: RandomxFlags::default panics (modelled as `none`, a
process-fatal unwrap rather than a recoverable error value) exactly
when the engine's recommended bitmask contains a bit outside the known
named flag set, and on success returns the bitmask unchanged — no bit
is ever silently masked off. -/
theorem default_flags_rejects_unknown_bits (eng : Engine) :
    (RandomxFlags.defaultFlags eng = none
      ↔ ¬ (eng.recommendedFlags &&& RandomxFlags.allBits = eng.recommendedFlags))
    ∧ (∀ f, RandomxFlags.defaultFlags eng = some f
        → f.bits = eng.recommendedFlags) := by
  unfold RandomxFlags.defaultFlags RandomxFlags.fromBits
  constructor
  · by_cases h : eng.recommendedFlags &&& RandomxFlags.allBits = eng.recommendedFlags
    · rw [if_pos h]; simp [h]
    · rw [if_neg h]; simp [h]
  · intro f hf
    by_cases h : eng.recommendedFlags &&& RandomxFlags.allBits = eng.recommendedFlags
    · rw [if_pos h] at hf
      cases hf
      rfl
    · rw [if_neg h] at hf
      cases hf

/-- Claim C10: the thread-count parameter of dataset creation is a u8
(here `Fin 256`), so every run issues at most 255 range-populate calls:
thread counts above 255 are unrepresentable at the interface rather
than rejected at runtime. -/
theorem thread_count_u8_partition_bound (eng : Engine) (wenv : WorkerEnv)
    (flags : RandomxFlags) (key : List Nat) (n : Fin 256) :
    (initCallRanges (RandomxDataset.new eng wenv flags key n).calls).length
      ≤ 255 := by
  unfold RandomxDataset.new RandomxCache.new
  by_cases h0 : n.val = 0
  · rw [if_pos h0]
    simp [initCallRanges]
  · rw [if_neg h0]
    by_cases hc : eng.cacheAllocOk flags
    · rw [if_pos hc]
      simp only []
      by_cases hd : eng.datasetAllocOk flags
      · rw [if_pos hd]
        by_cases h1 : n.val = 1
        · rw [if_pos h1]
          simp [initCallRanges]
        · rw [if_neg h1]
          have hb : n.val ≤ 255 := by have := n.isLt; omega
          have hle := initCallRanges_workerEnum_le wenv
            (spawnedRanges eng.itemCount n.val) 0
          have hlen : (spawnedRanges eng.itemCount n.val).length = n.val := by
            simp [spawnedRanges, initRanges_length]
          rw [hlen] at hle
          simp only [initCallRanges, List.filterMap_append, List.length_append,
            List.filterMap_cons, List.filterMap_nil, List.enum] at hle ⊢
          simp only [List.length_nil] at hle ⊢
          omega
      · rw [if_neg hd]
        simp [initCallRanges]
    · rw [if_neg hc]
      simp [initCallRanges]

/-- A concrete engine on which every allocation succeeds, with 10
dataset items and a recommended bitmask containing the unknown bit 128. -/
def engW : Engine where
  cacheAllocOk := fun _ => true
  datasetAllocOk := fun _ => true
  itemCount := 10
  vmCreate := fun _ => some 1
  calcHash := fun _ _ _ => 0
  recommendedFlags := 128

/-- A concrete engine whose cache allocation fails. -/
def engNoCacheW : Engine where
  cacheAllocOk := fun _ => false
  datasetAllocOk := fun _ => true
  itemCount := 10
  vmCreate := fun _ => some 1
  calcHash := fun _ _ _ => 0
  recommendedFlags := 0

/-- A concrete scheduling environment: worker 0 panics and exclusive
ownership of the shared dataset is not reclaimed. -/
def panicW : WorkerEnv where
  panics := fun i => i == 0
  tryUnwrapOk := false

/-- A concrete flag set containing FULLMEM (bits 2 and 4). -/
def flagsWithFull : RandomxFlags := ⟨6⟩

/-- A concrete flag set lacking FULLMEM (bit 2 only). -/
def flagsNoFull : RandomxFlags := ⟨2⟩

/-- Witness for C1 at item count 10, three threads, item 7. -/
theorem dataset_parallel_equiv_serial_witness :
    countCovering
        (initCallRanges (RandomxDataset.new engW noPanics flagsNoFull [] 3).calls) 7
      = (if 7 < engW.itemCount then 1 else 0)
    ∧ countCovering
        (initCallRanges (RandomxDataset.new engW noPanics flagsNoFull [] 3).calls) 7
      = countCovering
        (initCallRanges (RandomxDataset.new engW noPanics flagsNoFull [] 1).calls) 7 :=
  dataset_parallel_equiv_serial engW flagsNoFull [] 3 (by decide) (by decide)
    (by decide) 7

/-- Witness for C2 at item count 10 and three threads. -/
theorem dataset_partition_shape_witness :
    (populateRanges 10 3).length = 3
    ∧ ((populateRanges 10 3).getD 0 (0, 0)).1 = 0
    ∧ (∀ k, k + 1 < 3 →
        ((populateRanges 10 3).getD (k + 1) (0, 0)).1
          = ((populateRanges 10 3).getD k (0, 0)).1
            + ((populateRanges 10 3).getD k (0, 0)).2)
    ∧ ((populateRanges 10 3).map Prod.snd).sum = 10
    ∧ (∀ k, k + 1 < 3 → ((populateRanges 10 3).getD k (0, 0)).2 = 10 / 3)
    ∧ ((populateRanges 10 3).getD (3 - 1) (0, 0)).2 = 10 / 3 + 10 % 3 :=
  dataset_partition_shape 10 3 (by decide)

/-- Witness for C4: two workers, worker 0 panicking, reclamation
failing. -/
theorem dataset_joins_all_workers_witness :
    (RandomxDataset.new engW panicW flagsNoFull [] 2).joined = (2 : Fin 256).val
    ∧ (panicW.tryUnwrapOk = false →
       (RandomxDataset.new engW panicW flagsNoFull [] 2).result
         = DsOutcome.errored RandomxError.DatasetAllocError) :=
  dataset_joins_all_workers engW panicW flagsNoFull [] 2 (by decide) (by decide)
    (by decide)

/-- Witness for C5 at the concrete flag values 6 (with FULLMEM) and 2
(without it). -/
theorem vm_mode_flag_mismatch_fails_fast_witness :
    RandomxVm.new engW flagsWithFull
      = ([], Except.error RandomxError.VmAllocError)
    ∧ RandomxVm.newFast engW flagsNoFull
      = ([], Except.error RandomxError.VmAllocError) :=
  vm_mode_flag_mismatch_fails_fast engW flagsWithFull flagsNoFull (by decide)
    (by decide)

/-- Witness for C7 on the engine whose cache allocation fails, one
thread. -/
theorem dataset_cache_failure_distinct_witness :
    (engNoCacheW.cacheAllocOk flagsNoFull = false →
      (RandomxDataset.new engNoCacheW noPanics flagsNoFull [] 1).result
        = DsOutcome.errored RandomxError.CacheAllocError)
    ∧ (engNoCacheW.cacheAllocOk flagsNoFull = true →
       engNoCacheW.datasetAllocOk flagsNoFull = false →
      (RandomxDataset.new engNoCacheW noPanics flagsNoFull [] 1).result
        = DsOutcome.errored RandomxError.DatasetAllocError)
    ∧ RandomxError.CacheAllocError ≠ RandomxError.DatasetAllocError :=
  dataset_cache_failure_distinct engNoCacheW noPanics flagsNoFull [] 1 (by decide)

/-- Witness for C8 on a concrete VM handle and a two-byte input. -/
theorem hash_total_deterministic_witness :
    (RandomxVm.hash engW ⟨5⟩ [1, 2]).length = 32
    ∧ RandomxVm.hash engW ⟨5⟩ [1, 2] = RandomxVm.hash engW ⟨5⟩ [1, 2]
    ∧ (RandomxVm.hash engW ⟨5⟩ []).length = 32 :=
  hash_total_deterministic engW ⟨5⟩ ⟨5⟩ [1, 2] (by decide)

/-- Witness for C9 on the engine whose recommended bitmask carries the
unknown bit 128. -/
theorem default_flags_rejects_unknown_bits_witness :
    (RandomxFlags.defaultFlags engW = none
      ↔ ¬ (engW.recommendedFlags &&& RandomxFlags.allBits = engW.recommendedFlags))
    ∧ (∀ f, RandomxFlags.defaultFlags engW = some f
        → f.bits = engW.recommendedFlags) :=
  default_flags_rejects_unknown_bits engW
